import Mathlib

/-!
Verification development for the sourcing-agent repository (plan-guided
parallel discovery engine). The definitions below are shallow embeddings of
the Python source under backend/: data structures become Lean structures,
SQL tables become association lists of rows, and the stateful operations of
the state manager, worker iteration, orchestrator loop, planner fallback,
repository and link scorer become explicit state-passing functions. Python
string truthiness, dict semantics (first-match lookup, in-place update,
insertion-order append) and exception control flow (modelled with Except /
explicit result pairs) are reproduced where the source relies on them.
-/

set_option autoImplicit false

/-! ### Association-list helpers (Python dict semantics) -/

/-- First-match lookup, as a Python dict read (keys are unique in practice;
lookup returns the first binding). -/
def assocFind? {α : Type} (l : List (String × α)) (k : String) : Option α :=
  match l with
  | [] => none
  | (k0, v0) :: rest => if k0 = k then some v0 else assocFind? rest k

/-- Python dict assignment `d[k] = v`: replace the first binding of `k` in
place, or append a new binding at the end (insertion order preserved). -/
def assocUpdate {α : Type} (l : List (String × α)) (k : String) (v : α) :
    List (String × α) :=
  match l with
  | [] => [(k, v)]
  | (k0, v0) :: rest =>
      if k0 = k then (k0, v) :: rest else (k0, v0) :: assocUpdate rest k v

/-- Python set `s.add(x)` on a set modelled as a duplicate-free list. -/
def setAdd (l : List String) (x : String) : List String :=
  if x ∈ l then l else l ++ [x]

theorem assocFind?_update_self {α : Type} (l : List (String × α)) (k : String)
    (v : α) : assocFind? (assocUpdate l k v) k = some v := by
  induction l with
  | nil => simp [assocUpdate, assocFind?]
  | cons hd tl ih =>
      obtain ⟨k0, v0⟩ := hd
      by_cases h : k0 = k
      · simp [assocUpdate, assocFind?, h]
      · simp [assocUpdate, assocFind?, h, ih]

theorem assocFind?_update_ne {α : Type} (l : List (String × α)) (k c : String)
    (v : α) (h : k ≠ c) : assocFind? (assocUpdate l k v) c = assocFind? l c := by
  induction l with
  | nil => simp [assocUpdate, assocFind?, h]
  | cons hd tl ih =>
      obtain ⟨k0, v0⟩ := hd
      by_cases h0 : k0 = k
      · subst h0
        simp [assocUpdate, assocFind?, h]
      · simp [assocUpdate, assocFind?, h0, ih]

/-! ### Python string truthiness -/

/-- Python truthiness of an optional string: `None` and `""` are falsy. -/
def strTruthy : Option String → Bool
  | none => false
  | some s => s ≠ ""

/-- Python `not s or not s.strip()`: true iff the string is empty or
whitespace-only (equivalently, stripping whitespace leaves the empty
string). -/
def pyBlank (s : String) : Bool := s.data.all Char.isWhitespace

/-! ### db/models.py — the visited_urls table

`VisitedURL` declares `url` as its only primary key; `research_id` is a plain
nullable column. `Base.metadata.create_all` (db/init_db.py) creates exactly
this schema, so the only unique index on the table is the one backing the
primary key on `url`. -/

/-- A row of the `visited_urls` table. -/
structure VisitedRow where
  url : String
  research_id : Option String
deriving Repr, DecidableEq

/-- The unique indexes that exist on `visited_urls`: only the primary key on
`url` (db/models.py, class VisitedURL). -/
def visitedURLUniqueIndexes : List (List String) := [["url"]]

/-- PostgreSQL `INSERT ... ON CONFLICT (arbiter) DO NOTHING` against the
`visited_urls` table. The arbiter column list must name an existing unique
index, otherwise the statement itself raises (error 42P10, "there is no
unique or exclusion constraint matching the ON CONFLICT specification").
On success it returns the new table and the rowcount (1 if inserted, 0 if a
conflicting row existed on the arbiter columns). -/
def insertVisitedOnConflictDoNothing (arbiter : List String) (row : VisitedRow)
    (table : List VisitedRow) : Except String (List VisitedRow × Nat) :=
  if arbiter ∈ visitedURLUniqueIndexes then
    if table.any (fun r => r.url = row.url) then
      Except.ok (table, 0)
    else
      Except.ok (table ++ [row], 1)
  else
    Except.error
      "ProgrammingError: there is no unique or exclusion constraint matching the ON CONFLICT specification"

namespace DatabaseStateManager

/-- state_manager.py, `DatabaseStateManager.is_url_visited`: select rows with
this `url`; when `research_id` is truthy, also filter by it. -/
def isUrlVisited (url : String) (researchId : Option String)
    (table : List VisitedRow) : Bool :=
  table.any (fun r =>
    r.url = url && (!(strTruthy researchId) || r.research_id == researchId))

/-- state_manager.py, `DatabaseStateManager.mark_url_visited`: issue
`insert(VisitedURL).values(url=url, research_id=research_id)` with
`on_conflict_do_nothing(index_elements=["url", "research_id"])`, commit, and
return `rowcount > 0`; any exception rolls back and returns `False`. -/
def markUrlVisited (url : String) (researchId : Option String)
    (table : List VisitedRow) : Bool × List VisitedRow :=
  match insertVisitedOnConflictDoNothing ["url", "research_id"]
      { url := url, research_id := researchId } table with
  | Except.ok (table2, rowcount) => (decide (rowcount > 0), table2)
  | Except.error _ => (false, table)

end DatabaseStateManager

/-! ### state_manager.py — RedisStateManager

The worker iteration instantiates `RedisStateManager`, whose visited-URL
operations front the database manager with a Redis set per research id
(write-through on mark, cache-aside on read). The Redis service is modelled
as always reachable. -/

/-- Shared mutable state seen by all workers: the `visited_urls` table and
the Redis sets (key -> members). -/
structure SharedStore where
  db : List VisitedRow
  redis : List (String × List String)
deriving Repr, DecidableEq

/-- Redis key used by RedisStateManager for visited URLs. -/
def redisVisitedKey (researchId : Option String) : String :=
  if strTruthy researchId then "visited_urls:" ++ researchId.getD "" else "visited_urls"

/-- Redis `SISMEMBER key url`. -/
def redisHas (redis : List (String × List String)) (key url : String) : Bool :=
  match assocFind? redis key with
  | none => false
  | some members => url ∈ members

/-- Redis `SADD key url`. -/
def redisAdd (redis : List (String × List String)) (key url : String) :
    List (String × List String) :=
  match assocFind? redis key with
  | none => assocUpdate redis key [url]
  | some members => assocUpdate redis key (setAdd members url)

namespace RedisStateManager

/-- state_manager.py, `RedisStateManager.is_url_visited`: check the Redis set
first; on a miss consult the database and populate the cache on a hit. -/
def isUrlVisited (url : String) (researchId : Option String)
    (s : SharedStore) : Bool × SharedStore :=
  let key := redisVisitedKey researchId
  if redisHas s.redis key url then
    (true, s)
  else if DatabaseStateManager.isUrlVisited url researchId s.db then
    (true, { s with redis := redisAdd s.redis key url })
  else
    (false, s)

/-- state_manager.py, `RedisStateManager.mark_url_visited`: write-through to
the database first, then `SADD` the URL to the Redis set regardless of the
database result, and return the database result. -/
def markUrlVisited (url : String) (researchId : Option String)
    (s : SharedStore) : Bool × SharedStore :=
  let (isNew, db2) := DatabaseStateManager.markUrlVisited url researchId s.db
  (isNew, { db := db2, redis := redisAdd s.redis (redisVisitedKey researchId) url })

end RedisStateManager

/-! ### C2 groundwork: mark_url_visited never returns true

The arbiter `["url", "research_id"]` names no unique index of
`visited_urls` (the table's only unique index is the primary key on `url`),
so the INSERT raises, the except branch rolls back, and the call returns
`False` with the table unchanged — for every input. -/

theorem markUrlVisited_db_always_false (url : String) (researchId : Option String)
    (table : List VisitedRow) :
    DatabaseStateManager.markUrlVisited url researchId table = (false, table) := by
  simp [DatabaseStateManager.markUrlVisited, insertVisitedOnConflictDoNothing,
    visitedURLUniqueIndexes]

theorem markUrlVisited_redis_always_false (url : String) (researchId : Option String)
    (s : SharedStore) :
    (RedisStateManager.markUrlVisited url researchId s).1 = false := by
  simp [RedisStateManager.markUrlVisited, markUrlVisited_db_always_false]

/-- C2 — code bug. `mark_url_visited` as implemented never returns `true`:
the `ON CONFLICT (url, research_id)` arbiter names no unique index of
`visited_urls` (models.py declares only the primary key on `url`), so the
INSERT statement raises, the except branch rolls back, and every call —
including the very first call for an unvisited URL — returns `false` and
leaves the table unchanged. Hence no caller ever observes the claimed
unvisited-to-visited transition, and no per-(url, research_id) row is ever
created. -/
theorem mark_url_visited_never_returns_true :
    (∀ (url : String) (researchId : Option String) (table : List VisitedRow),
      DatabaseStateManager.markUrlVisited url researchId table = (false, table)) ∧
    DatabaseStateManager.isUrlVisited "https://a.example/x" (some "r1") [] = false ∧
    (DatabaseStateManager.markUrlVisited "https://a.example/x" (some "r1") []).1 =
      false ∧
    (["url", "research_id"] ∈ visitedURLUniqueIndexes) = False :=
  ⟨markUrlVisited_db_always_false, by decide, by decide, by decide⟩

/-! ### research/activities.py — the URL phase of execute_worker_iteration

Lines 197-267. `WorkerState` (state.py lines 64-84) declares the fields
`id, research_id, strategy, queries, status, pages_fetched, entities_found,
new_entities, personal_queue, query_history` — and no `explored_domains`
(nor does any other code attach one); on a pydantic model every access to
`worker_state.explored_domains` raises `AttributeError`. The phase
therefore runs as follows:

* lines 199-207 iterate over `personal_queue` and read
  `worker_state.explored_domains` in the loop body, so a non-empty personal
  queue aborts the iteration right here;
* with an empty personal queue, lines 235-249 filter `url_queue` through
  `state_manager.is_url_visited` (stopping at the page budget and skipping
  blank strings) into `valid_urls`;
* the chunk loop (lines 252-262) then runs, per URL:
  `mark_url_visited(url)` (its boolean result is discarded), then
  `worker_state.explored_domains.add(domain)` — which raises. So when
  `valid_urls` is non-empty, exactly one URL is marked (the mark returns
  `false`, see the C2 theorems) and the iteration aborts before
  `extract_batch` at line 264 is ever reached: no URL is fetched and
  extracted. When `valid_urls` is empty the chunk loop body never runs and
  nothing is marked or fetched either. -/

/-- The observable outcome of the URL phase: the URLs handed to the
fetch/extract batch, the (discarded) results of the `mark_url_visited`
calls, the shared store afterwards, and the exception aborting the
iteration, if any. -/
structure WorkerPhaseResult where
  fetched : List String
  markResults : List (String × Bool)
  store : SharedStore
  error : Option String
deriving Repr, DecidableEq

/-- activities.py lines 235-249: build `valid_urls` from `url_queue`. The
loop breaks once the budget is reached, skips blank URLs, and skips URLs for
which `is_url_visited` is true (`pages_fetched` is 0 at this point, so the
bound compares `len(valid_urls)` with `page_budget`). -/
def collectValidUrls (researchId : Option String) (pageBudget : Nat) :
    List String → Nat → SharedStore → List String × SharedStore
  | [], _, s => ([], s)
  | u :: us, count, s =>
      if pageBudget ≤ count then ([], s)
      else if pyBlank u then collectValidUrls researchId pageBudget us count s
      else
        match RedisStateManager.isUrlVisited u researchId s with
        | (true, s2) => collectValidUrls researchId pageBudget us count s2
        | (false, s2) =>
            let (vs, s3) := collectValidUrls researchId pageBudget us (count + 1) s2
            (u :: vs, s3)

/-- activities.py lines 197-267: the URL phase of
`execute_worker_iteration`. A non-empty `personal_queue` raises
`AttributeError` in the domain-preference loop; otherwise `valid_urls` is
collected, and if it is non-empty the chunk loop marks its first URL and
then raises `AttributeError` at `worker_state.explored_domains.add(domain)`
— before the fetch/extract batch. In every case `fetched` is empty. -/
def workerUrlPhase (personalQueue urlQueue : List String) (pageBudget : Nat)
    (researchId : Option String) (s : SharedStore) : WorkerPhaseResult :=
  if !personalQueue.isEmpty then
    { fetched := [], markResults := [], store := s,
      error := some "AttributeError: explored_domains" }
  else
    match collectValidUrls researchId pageBudget urlQueue 0 s with
    | ([], s1) => { fetched := [], markResults := [], store := s1, error := none }
    | (u :: _, s1) =>
        let marked := RedisStateManager.markUrlVisited u researchId s1
        { fetched := [], markResults := [(u, marked.1)], store := marked.2,
          error := some "AttributeError: explored_domains" }

/-- C1 — corrected. A worker iteration never fetches and extracts any URL:
the `explored_domains` accesses of activities.py (a field `WorkerState` does
not declare) abort the iteration with `AttributeError` before
`extract_batch` — after at most one `mark_url_visited` call, whose result
is discarded by the source and is always `false`. Consequently no
`mark_url_visited(u)` call ever returns `true`, and when two workers see
the same outlink `u` in one iteration, neither fetches `u`. -/
theorem worker_iteration_never_fetches (personalQueue urlQueue : List String)
    (pageBudget : Nat) (researchId : Option String) (s : SharedStore) :
    (workerUrlPhase personalQueue urlQueue pageBudget researchId s).fetched = [] ∧
    (∀ p ∈ (workerUrlPhase personalQueue urlQueue pageBudget researchId s).markResults,
      p.2 = false) ∧
    ((workerUrlPhase personalQueue urlQueue pageBudget researchId s).markResults ≠ [] →
      (workerUrlPhase personalQueue urlQueue pageBudget researchId s).error =
        some "AttributeError: explored_domains") := by
  unfold workerUrlPhase
  split
  · exact ⟨rfl, by simp, by simp⟩
  · split
    · exact ⟨rfl, by simp, by simp⟩
    · dsimp only
      refine ⟨rfl, ?_, fun _ => rfl⟩
      intro p hp
      simp only [List.mem_singleton] at hp
      simp [hp, markUrlVisited_redis_always_false]

/-- C1 — witness for the corrected claim: a worker whose queue holds one
fresh URL fetches nothing, records a single `false` mark, and aborts with
the `explored_domains` AttributeError. -/
theorem worker_iteration_never_fetches_witness :
    (workerUrlPhase [] ["https://a.example/x"] 50 (some "r1")
      { db := [], redis := [] }).fetched = [] ∧
    (workerUrlPhase [] ["https://a.example/x"] 50 (some "r1")
      { db := [], redis := [] }).error = some "AttributeError: explored_domains" :=
  ⟨(worker_iteration_never_fetches [] ["https://a.example/x"] 50 (some "r1")
      { db := [], redis := [] }).1,
   (worker_iteration_never_fetches [] ["https://a.example/x"] 50 (some "r1")
      { db := [], redis := [] }).2.2 (by decide)⟩

/-! ### state_manager.py — DatabaseStateManager.mark_entity_known (C4)

The `entities` table is keyed by `canonical_name` (global, not scoped by
research id); its `attributes` column is a JSON object whose values may be
strings or null (extraction emits null for unknown fields). -/

/-- Attribute bag of an entity row: JSON object, values possibly null. -/
abbrev EntityAttrs := List (String × Option String)

/-- One `for k, v in attributes.items()` step of the merge loop in
`mark_entity_known`: update only if `v` is truthy and the current value is
missing, empty, or "Unknown" (`if v and (not current_val or current_val in
{"Unknown", ""})`). -/
def mergeAttrStep (cur : EntityAttrs) (kv : String × Option String) : EntityAttrs :=
  if strTruthy kv.2 &&
      (!(strTruthy ((assocFind? cur kv.1).join)) ||
        (assocFind? cur kv.1).join == some "Unknown" ||
        (assocFind? cur kv.1).join == some "") then
    assocUpdate cur kv.1 kv.2
  else cur

namespace DatabaseStateManager

/-- state_manager.py, `DatabaseStateManager.mark_entity_known`: if the row
exists, merge the attributes under the policy above and return `False`
("already known"); otherwise insert a new row with the given attributes and
return `True` (the merge loop runs only when `attributes` is a truthy,
i.e. non-empty, dict). -/
def markEntityKnown (canonicalName : String) (attributes : EntityAttrs)
    (table : List (String × EntityAttrs)) : Bool × List (String × EntityAttrs) :=
  match assocFind? table canonicalName with
  | some existingAttrs =>
      if attributes.isEmpty then (false, table)
      else (false, assocUpdate table canonicalName
        (attributes.foldl mergeAttrStep existingAttrs))
  | none => (true, table ++ [(canonicalName, attributes)])

end DatabaseStateManager

/-- The attribute value of entity `name` at key `k` in the entities table
(missing row, missing key and stored null all read as `none`). -/
def entityAttrValue (table : List (String × EntityAttrs)) (name k : String) :
    Option String :=
  match assocFind? table name with
  | none => none
  | some attrs => (assocFind? attrs k).join

theorem foldl_mergeAttrStep_preserves (attributes : EntityAttrs)
    (cur : EntityAttrs) (k v : String) (h : assocFind? cur k = some (some v))
    (hv1 : v ≠ "") (hv2 : v ≠ "Unknown") :
    assocFind? (attributes.foldl mergeAttrStep cur) k = some (some v) := by
  induction attributes generalizing cur with
  | nil => simpa using h
  | cons kv rest ih =>
      have hstep : assocFind? (mergeAttrStep cur kv) k = some (some v) := by
        by_cases hk : kv.1 = k
        · subst hk
          simp [mergeAttrStep, h, strTruthy, hv1, hv2, Option.join, Option.bind]
        · unfold mergeAttrStep
          split
          · rw [assocFind?_update_ne cur kv.1 k kv.2 hk]
            exact h
          · exact h
      simpa using ih (mergeAttrStep cur kv) hstep

/-- C4 — confirmed. `mark_entity_known` returns `true` iff the entity row
was newly inserted (independent of any attribute merge), and its merge
policy never overwrites an attribute slot that already holds a non-empty
value different from "Unknown": such a slot keeps its value across every
subsequent `mark_entity_known` call. -/
theorem mark_entity_known_merge_policy (canonicalName : String)
    (attributes : EntityAttrs) (table : List (String × EntityAttrs)) :
    ((DatabaseStateManager.markEntityKnown canonicalName attributes table).1 = true ↔
      assocFind? table canonicalName = none) ∧
    (∀ k v, entityAttrValue table canonicalName k = some v → v ≠ "" → v ≠ "Unknown" →
      entityAttrValue
        (DatabaseStateManager.markEntityKnown canonicalName attributes table).2
        canonicalName k = some v) := by
  constructor
  · cases hfind : assocFind? table canonicalName with
    | none => simp [DatabaseStateManager.markEntityKnown, hfind]
    | some existingAttrs =>
        cases he : attributes.isEmpty <;>
          simp [DatabaseStateManager.markEntityKnown, hfind, he]
  · intro k v hval hv1 hv2
    cases hfind : assocFind? table canonicalName with
    | none => simp [entityAttrValue, hfind] at hval
    | some existingAttrs =>
        simp only [entityAttrValue, hfind] at hval
        have hcur : assocFind? existingAttrs k = some (some v) :=
          Option.join_eq_some.mp hval
        cases he : attributes.isEmpty with
        | true =>
            simp [DatabaseStateManager.markEntityKnown, hfind, he, entityAttrValue,
              hcur, Option.join, Option.bind]
        | false =>
            simp [DatabaseStateManager.markEntityKnown, hfind, he, entityAttrValue,
              assocFind?_update_self,
              foldl_mergeAttrStep_preserves attributes existingAttrs k v hcur hv1 hv2,
              Option.join, Option.bind]

/-- C4 — witness: a populated `owner` slot survives a re-observation that
tries to overwrite it. -/
theorem mark_entity_known_merge_policy_witness :
    entityAttrValue [("BMS-986158", [("owner", some "OrigCo")])]
      "BMS-986158" "owner" = some "OrigCo" ∧
    entityAttrValue
      (DatabaseStateManager.markEntityKnown "BMS-986158"
        [("owner", some "Acme"), ("target", some "CDK12")]
        [("BMS-986158", [("owner", some "OrigCo")])]).2
      "BMS-986158" "owner" = some "OrigCo" :=
  ⟨by decide,
    (mark_entity_known_merge_policy "BMS-986158"
      [("owner", some "Acme"), ("target", some "CDK12")]
      [("BMS-986158", [("owner", some "OrigCo")])]).2 "owner" "OrigCo"
      (by decide) (by decide) (by decide)⟩

/-- C1 — counterexample to the claim as stated: two workers whose queues
hold the same fresh outlink. Worker A marks it once (the call returns
`false`) and aborts before fetching; worker B, running on the resulting
shared store, is filtered by `is_url_visited` and neither marks nor fetches
it. So no `mark_url_visited(u)` call returns `true` — the claimed
"exactly one call returns true and only that worker fetches u" is false. -/
theorem race_without_any_true_mark_counterexample :
    (workerUrlPhase [] ["https://a.example/x"] 50 (some "r1")
      { db := [], redis := [] }).markResults = [("https://a.example/x", false)] ∧
    (workerUrlPhase [] ["https://a.example/x"] 50 (some "r1")
      { db := [], redis := [] }).fetched = [] ∧
    (workerUrlPhase [] ["https://a.example/x"] 50 (some "r1")
      (workerUrlPhase [] ["https://a.example/x"] 50 (some "r1")
        { db := [], redis := [] }).store).markResults = [] ∧
    (workerUrlPhase [] ["https://a.example/x"] 50 (some "r1")
      (workerUrlPhase [] ["https://a.example/x"] 50 (some "r1")
        { db := [], redis := [] }).store).fetched = [] := by
  decide

/-! ### research/state.py + research/workflows.py — entity aggregation

`Entity` (state.py) carries a canonical name, an alias set, optional
drug_class / clinical_phase strings, an attribute map, an evidence list and
a mention count. The orchestrator's fan-in (workflows.py lines 126-156)
merges each extracted item into `state.known_entities` (a dict keyed by
canonical name): a fresh canonical creates an `Entity` with
`mention_count = 1`, adds `item["alias"]` to the alias set and extends the
evidence list; an existing canonical bumps `mention_count`, fills
drug_class / clinical_phase only when falsy, adds the alias and extends the
evidence list. -/

/-- state.py `EvidenceSnippet`. -/
structure EvidenceSnippet where
  source_url : String
  content : String
  timestamp : String
deriving Repr, DecidableEq

/-- state.py `Entity` (pydantic model). -/
structure Entity where
  canonical_name : String
  aliases : List String := []
  drug_class : Option String := none
  clinical_phase : Option String := none
  attributes : List (String × Option String) := []
  evidence : List EvidenceSnippet := []
  mention_count : Nat := 0
deriving Repr, DecidableEq

/-- One element of a worker result's `extracted_data` as produced by
extraction.py `extract_entities` (keys: canonical, alias, attributes,
evidence; drug_class / clinical_phase are absent there, read back through
`item.get`, hence optional). -/
structure ExtractedItem where
  canonical : String
  /-- the source dict key "alias" (a Lean keyword, hence this field name) -/
  aliasName : String
  attributes : List (String × Option String) := []
  evidence : List EvidenceSnippet := []
  drug_class : Option String := none
  clinical_phase : Option String := none
deriving Repr, DecidableEq

/-- workflows.py lines 126-156: merge one extracted item into
`known_entities`. -/
def mergeExtractedItem (known : List (String × Entity)) (item : ExtractedItem) :
    List (String × Entity) :=
  if item.canonical = "" then known
  else
    match assocFind? known item.canonical with
    | none =>
        let e : Entity :=
          { canonical_name := item.canonical
            mention_count := 1
            drug_class := item.drug_class
            clinical_phase := item.clinical_phase
            aliases := setAdd [] item.aliasName
            evidence := item.evidence }
        known ++ [(item.canonical, e)]
    | some e =>
        let e2 : Entity :=
          { e with
            mention_count := e.mention_count + 1
            drug_class := if strTruthy e.drug_class then e.drug_class else item.drug_class
            clinical_phase :=
              if strTruthy e.clinical_phase then e.clinical_phase else item.clinical_phase
            aliases := setAdd e.aliases item.aliasName
            evidence := e.evidence ++ item.evidence }
        assocUpdate known item.canonical e2

/-- The fan-in over a list of extracted items (workflows.py, the
`for item in res.get("extracted_data", [])` loop). -/
def mergeWorkerResults (known : List (String × Entity))
    (items : List ExtractedItem) : List (String × Entity) :=
  items.foldl mergeExtractedItem known

/-! ### research/extraction.py — EntityExtractor.extract_entities

For every structured drug finding the source emits one extracted item per
name in `[drug.canonical_name] + drug.aliases` — so the canonical name
itself is emitted as an alias — every item carrying the same evidence
snippet, plus one item per trial id. -/

/-- A structured drug finding (extraction.py `AssetExtractionSchema` as
consumed by `extract_entities`). -/
structure DrugFinding where
  canonical_name : String
  aliases : List String := []
  target : Option String := none
  modality : Option String := none
  product_stage : Option String := none
  indication : Option String := none
  geography : Option String := none
  owner : Option String := none
  evidence_excerpt : Option String := none
  trial_ids : List String := []
deriving Repr, DecidableEq

/-- extraction.py lines 267-300: the items emitted for one drug finding of
`extract_entities(text, source_url)` at a given timestamp. The excerpt is
`drug.evidence_excerpt or (text[:500] if len(text) > 500 else text)`. -/
def extractItemsForDrug (drug : DrugFinding) (sourceUrl text timestamp : String) :
    List ExtractedItem :=
  let fallbackExcerpt := if 500 < text.length then text.take 500 else text
  let excerpt :=
    if strTruthy drug.evidence_excerpt then drug.evidence_excerpt.getD ""
    else fallbackExcerpt
  let snippet : EvidenceSnippet :=
    { source_url := sourceUrl, content := excerpt, timestamp := timestamp }
  let attrs : List (String × Option String) :=
    [("target", drug.target), ("modality", drug.modality),
     ("product_stage", drug.product_stage), ("indication", drug.indication),
     ("geography", drug.geography), ("owner", drug.owner)]
  ((drug.canonical_name :: drug.aliases).map fun name =>
    { canonical := drug.canonical_name
      aliasName := name
      attributes := attrs
      evidence := [snippet] }) ++
  (drug.trial_ids.map fun trial =>
    { canonical := trial, aliasName := trial, evidence := [snippet] })

/-- C3 — corrected (amended form). The orchestrator's fan-in appends the
incoming evidence to an existing entity unconditionally — there is no
deduplication by `(source_url, content)` in `known_entities` — so merging an
already-present snippet again duplicates it. -/
theorem merge_appends_evidence_without_dedup (known : List (String × Entity))
    (item : ExtractedItem) (e : Entity) (hc : item.canonical ≠ "")
    (hfind : assocFind? known item.canonical = some e) :
    ∃ e2, assocFind? (mergeExtractedItem known item) item.canonical = some e2 ∧
      e2.evidence = e.evidence ++ item.evidence := by
  unfold mergeExtractedItem
  rw [if_neg hc, hfind]
  exact ⟨_, assocFind?_update_self known item.canonical _, rfl⟩

/-- C3 — witness: re-merging an item whose only snippet is already present
doubles the snippet in the entity's evidence. -/
theorem merge_appends_evidence_without_dedup_witness :
    ∃ e2,
      assocFind?
        (mergeExtractedItem
          [("Drug-A",
            { canonical_name := "Drug-A", aliases := ["Drug-A"],
              evidence :=
                [{ source_url := "https://s.example/p", content := "ev",
                   timestamp := "ts" }],
              mention_count := 1 })]
          { canonical := "Drug-A", aliasName := "Drug-A",
            evidence :=
              [{ source_url := "https://s.example/p", content := "ev",
                 timestamp := "ts" }] })
        "Drug-A" = some e2 ∧
      e2.evidence =
        [{ source_url := "https://s.example/p", content := "ev", timestamp := "ts" }] ++
        [{ source_url := "https://s.example/p", content := "ev", timestamp := "ts" }] :=
  merge_appends_evidence_without_dedup
    [("Drug-A",
      { canonical_name := "Drug-A", aliases := ["Drug-A"],
        evidence :=
          [{ source_url := "https://s.example/p", content := "ev", timestamp := "ts" }],
        mention_count := 1 })]
    { canonical := "Drug-A", aliasName := "Drug-A",
      evidence :=
        [{ source_url := "https://s.example/p", content := "ev", timestamp := "ts" }] }
    { canonical_name := "Drug-A", aliases := ["Drug-A"],
      evidence :=
        [{ source_url := "https://s.example/p", content := "ev", timestamp := "ts" }],
      mention_count := 1 }
    (by decide) (by decide)

/-- C3 — counterexample to the claim as stated: a single page whose drug
finding has one alias yields two extracted items carrying the same snippet;
after the fan-in the entity holds 2 evidence entries over 1 distinct
`(source_url, content)` pair. -/
theorem known_entities_duplicate_evidence_counterexample :
    (assocFind?
      (mergeWorkerResults []
        (extractItemsForDrug
          { canonical_name := "Drug-A", aliases := ["DA-1"],
            evidence_excerpt := some "Drug-A excerpt" }
          "https://s.example/p" "page text" "2026-01-01T00:00:00Z"))
      "Drug-A").map
      (fun e => (e.evidence.length,
        (e.evidence.map fun ev => (ev.source_url, ev.content)).dedup.length)) =
      some (2, 1) := by
  decide

/-- C5 — corrected (amended form). `extract_entities` emits the canonical
name itself as an alias and the fan-in adds it to the alias set without
suppression, so after merging the same no-alias drug finding from three
URLs the entity has `aliases = [canonical_name]` (size 1, not 0), 3
evidence snippets and `mention_count = 3`. -/
theorem merged_entity_aliases_contain_canonical (drug : DrugFinding)
    (u1 t1 ts1 u2 t2 ts2 u3 t3 ts3 : String) (hc : drug.canonical_name ≠ "")
    (ha : drug.aliases = []) (htr : drug.trial_ids = []) :
    (assocFind?
      (mergeWorkerResults []
        (extractItemsForDrug drug u1 t1 ts1 ++ extractItemsForDrug drug u2 t2 ts2 ++
          extractItemsForDrug drug u3 t3 ts3))
      drug.canonical_name).map
      (fun e => (e.aliases, e.evidence.length, e.mention_count)) =
      some ([drug.canonical_name], 3, 3) := by
  simp [mergeWorkerResults, mergeExtractedItem, extractItemsForDrug, ha, htr, hc,
    assocFind?, assocUpdate, setAdd, strTruthy]

/-- C5 — witness for the amended claim at a concrete drug finding and three
concrete URLs. -/
theorem merged_entity_aliases_contain_canonical_witness :
    (assocFind?
      (mergeWorkerResults []
        (extractItemsForDrug
            { canonical_name := "BMS-986158", evidence_excerpt := some "e1" }
            "https://u1.example" "t" "ts1" ++
          extractItemsForDrug
            { canonical_name := "BMS-986158", evidence_excerpt := some "e1" }
            "https://u2.example" "t" "ts2" ++
          extractItemsForDrug
            { canonical_name := "BMS-986158", evidence_excerpt := some "e1" }
            "https://u3.example" "t" "ts3"))
      "BMS-986158").map
      (fun e => (e.aliases, e.evidence.length, e.mention_count)) =
      some (["BMS-986158"], 3, 3) :=
  merged_entity_aliases_contain_canonical
    { canonical_name := "BMS-986158", evidence_excerpt := some "e1" }
    "https://u1.example" "t" "ts1" "https://u2.example" "t" "ts2"
    "https://u3.example" "t" "ts3" (by decide) (by decide) (by decide)

/-- C5 — counterexample to the claim as stated: in the three-URL scenario
the merged entity's alias set is not empty — it contains exactly the
canonical name. -/
theorem merged_aliases_nonzero_counterexample :
    (assocFind?
      (mergeWorkerResults []
        (extractItemsForDrug
            { canonical_name := "BMS-986158", evidence_excerpt := some "e1" }
            "https://u1.example" "t" "ts1" ++
          extractItemsForDrug
            { canonical_name := "BMS-986158", evidence_excerpt := some "e1" }
            "https://u2.example" "t" "ts2" ++
          extractItemsForDrug
            { canonical_name := "BMS-986158", evidence_excerpt := some "e1" }
            "https://u3.example" "t" "ts3"))
      "BMS-986158").map
      (fun e => (decide ("BMS-986158" ∈ e.aliases), e.aliases.length)) =
      some (true, 1) := by
  decide

/-! ### research/workflows.py — the iterating loop of DeepResearchOrchestrator.run

`while state.iteration_count < max_iters:` — the body breaks immediately
when no worker is active, otherwise fans out, aggregates, increments
`iteration_count`, and breaks when
`global_novelty < 0.05 and state.iteration_count > 1` where
`global_novelty = total_new_entities / max(total_pages, 1)`; only then does
adaptive planning run and the loop continue. `max_iters` is
`config.MAX_ITERATIONS` (env-tunable, default 5). The per-iteration
environment (which workers are active and what the aggregation totals are)
is abstracted as functions of the iteration counter; float arithmetic is
modelled over ℚ. -/

/-- Abstract environment of the orchestrator loop: for the iteration whose
`iteration_count` value is `k` at loop entry, whether any worker is in
{ACTIVE, PRODUCTIVE, DECLINING}, and the aggregated
`(total_new_entities, total_pages)` of that iteration's worker results. -/
structure LoopEnv where
  active : Nat → Bool
  newEntities : Nat → Nat
  pages : Nat → Nat

/-- The saturation test of workflows.py line 175 at the end of an iteration,
with `count1` the already-incremented `iteration_count`:
`global_novelty < 0.05 and state.iteration_count > 1`. -/
def saturationExit (env : LoopEnv) (k count1 : Nat) : Bool :=
  decide ((env.newEntities k : ℚ) / (max (env.pages k) 1 : ℚ) < 5 / 100) &&
    decide (count1 > 1)

/-- workflows.py lines 62-217: the iterating loop. The `while` loop is
embedded with a structural fuel argument equal to the remaining budget
`max_iters - iteration_count`: fuel 0 is exactly the exit of the `while`
condition. The body first breaks when no worker is active, then runs the
iteration (incrementing the counter) and breaks on saturation, otherwise
continues. -/
def runLoopAux (env : LoopEnv) : Nat → Nat → Nat
  | 0, count => count
  | fuel + 1, count =>
      if !(env.active count) then count
      else
        if saturationExit env count (count + 1) then count + 1
        else runLoopAux env fuel (count + 1)

/-- The loop of `DeepResearchOrchestrator.run`, returning the final
`iteration_count` when entered with `iteration_count = count`. -/
def runLoop (env : LoopEnv) (maxIters : Nat) (count : Nat) : Nat :=
  runLoopAux env (maxIters - count) count

theorem runLoopAux_le (env : LoopEnv) (fuel count : Nat) :
    runLoopAux env fuel count ≤ count + fuel := by
  induction fuel generalizing count with
  | zero => simp [runLoopAux]
  | succ k ih =>
      unfold runLoopAux
      split
      · omega
      · split
        · omega
        · have h := ih (count + 1)
          omega

/-- C6 — confirmed. Started at `iteration_count = 0`, the loop executes at
most `MAX_ITERATIONS` iterations (so it terminates within
`MAX_ITERATIONS + 1`), and whenever an iteration ends with
`global_novelty < 0.05` while the incremented `iteration_count` is at least
2, the loop exits right there — the final count is that iteration's — and
control falls through to the verification phase. -/
theorem orchestrator_loop_terminates (env : LoopEnv) (maxIters c : Nat) :
    runLoop env maxIters 0 ≤ maxIters ∧
    (c < maxIters → env.active c = true → 1 ≤ c →
      (env.newEntities c : ℚ) / (max (env.pages c) 1 : ℚ) < 5 / 100 →
      runLoop env maxIters c = c + 1) := by
  constructor
  · have h := runLoopAux_le env (maxIters - 0) 0
    unfold runLoop
    omega
  · intro hlt hact hc hnov
    have hsat : saturationExit env c (c + 1) = true := by
      unfold saturationExit
      simp [hnov]
      omega
    have hfuel : maxIters - c = (maxIters - c - 1) + 1 := by omega
    unfold runLoop
    rw [hfuel]
    simp [runLoopAux, hact, hsat]

/-- C6 — witness: with every worker active and zero novelty from the second
iteration's totals, the loop run with `MAX_ITERATIONS = 5` from count 1
stops at count 2, and a full run from 0 stays within the budget. -/
theorem orchestrator_loop_terminates_witness :
    runLoop
      { active := fun _ => true, newEntities := fun _ => 0, pages := fun _ => 1 }
      5 0 ≤ 5 ∧
    runLoop
      { active := fun _ => true, newEntities := fun _ => 0, pages := fun _ => 1 }
      5 1 = 2 :=
  ⟨(orchestrator_loop_terminates
      { active := fun _ => true, newEntities := fun _ => 0, pages := fun _ => 1 }
      5 1).1,
   (orchestrator_loop_terminates
      { active := fun _ => true, newEntities := fun _ => 0, pages := fun _ => 1 }
      5 1).2 (by norm_num) rfl (by norm_num) (by norm_num)⟩

/-! ### research/activities.py — analyze_gaps, and its call in workflows.py

`analyze_gaps(entity_data, verification_result)` is pure string assembly
from `canonical_name` and `verification_result["missing_fields"]`. In the
gap-filling phase of `DeepResearchOrchestrator.run` (workflows.py lines
253-283), however, the activity is invoked with the literal argument
`{"status": "UNCERTAIN", "missing_fields": []}` — the verifier's actual
`missing_fields` list is discarded — and a gap-fill worker is created only
when the returned query list is non-empty. -/

/-- activities.py lines 565-593, `analyze_gaps`: targeted queries for each
recognized missing field, in source order. -/
def analyzeGaps (canonicalName : String) (missingFields : List String) :
    List String :=
  (if missingFields.contains "owner" then
    ["\"" ++ canonicalName ++ "\" developer owner company",
     "who developed \"" ++ canonicalName ++ "\""]
  else []) ++
  (if missingFields.contains "product_stage" ||
      missingFields.contains "clinical_phase" then
    ["\"" ++ canonicalName ++ "\" clinical trial stage phase"]
  else []) ++
  (if missingFields.contains "indication" then
    ["\"" ++ canonicalName ++ "\" therapeutic indication disease"]
  else [])

/-- workflows.py line 261: the queries the orchestrator actually requests
for an UNCERTAIN entity — `analyze_gaps` applied to the hard-coded argument
`{"status": "UNCERTAIN", "missing_fields": []}`. -/
def orchestratorGapQueries (canonicalName : String) : List String :=
  analyzeGaps canonicalName []

/-- workflows.py lines 265-280: a gap-fill worker is dispatched only when
the returned query list is non-empty (`if queries:`). -/
def orchestratorDispatchesGapWorker (canonicalName : String) : Bool :=
  !(orchestratorGapQueries canonicalName).isEmpty

/-- C7 — code bug. `analyze_gaps` itself, given
`missing_fields = ["owner"]`, produces exactly the two claimed queries by
deterministic string assembly; but the orchestrator calls it with a
hard-coded `missing_fields = []`, so for every UNCERTAIN entity the query
list it receives is empty and no gap-fill worker is ever dispatched. -/
theorem analyze_gaps_owner_queries_but_never_dispatched (name : String) :
    analyzeGaps name ["owner"] =
      ["\"" ++ name ++ "\" developer owner company",
       "who developed \"" ++ name ++ "\""] ∧
    orchestratorGapQueries name = [] ∧
    orchestratorDispatchesGapWorker name = false := by
  refine ⟨?_, rfl, rfl⟩
  simp [analyzeGaps]

/-! ### research/workflow_planning.py — InitialPlanningWorkflow

`generate_comprehensive_plan` formats the planning prompt, calls the LLM,
and parses the response as JSON. All parse-time failures
(`json.JSONDecodeError ⊂ ValueError`, pydantic `ValidationError ⊂
ValueError`, `KeyError`, `AttributeError`, `TypeError`) are caught by the
except clause, which returns the fallback plan instead of raising. The
parse outcome is modelled as an `Option` of the successfully decoded data;
the function is total — a parse failure cannot propagate. -/

/-- state.py `InitialWorkerStrategy` (the fields set by the planner). -/
structure InitialWorkerStrategy where
  worker_id : String
  strategy : String
  strategy_description : String
  example_queries : List String
  page_budget : Nat
deriving Repr, DecidableEq

/-- state.py `ResearchPlan` (the fields relevant to initial planning). -/
structure ResearchPlan where
  query_analysis : List (String × String)
  initial_workers : List InitialWorkerStrategy
  budget_reserve_pct : ℚ
  reasoning : String
  current_hypothesis : String
  findings_summary : String
deriving Repr, DecidableEq

/-- The data of a successfully parsed planner response (JSON keys
`query_analysis`, `initial_workers`, `budget_reserve_pct`, `reasoning`,
with their source-side defaults already applied by `.get`). -/
structure ParsedPlanData where
  query_analysis : List (String × String)
  initial_workers : List InitialWorkerStrategy
  budget_reserve_pct : ℚ
  reasoning : String
deriving Repr, DecidableEq

/-- workflow_planning.py lines 142-148: the fallback worker. -/
def fallbackWorker (topic : String) : InitialWorkerStrategy :=
  { worker_id := "worker_1"
    strategy := "broad_fallback"
    strategy_description := "Broad search due to planning failure"
    example_queries := [topic]
    page_budget := 30 }

/-- workflow_planning.py lines 102-160, `generate_comprehensive_plan` after
the LLM call: build the plan from the parsed JSON, or — when parsing raised
one of the caught exception types — return the fallback plan. -/
def generateComprehensivePlan (topic : String) (parsed : Option ParsedPlanData) :
    ResearchPlan :=
  match parsed with
  | some data =>
      { query_analysis := data.query_analysis
        initial_workers := data.initial_workers
        budget_reserve_pct := data.budget_reserve_pct
        reasoning := data.reasoning
        current_hypothesis := "Planning for " ++ topic
        findings_summary := "Expert planning executed successfully." }
  | none =>
      { query_analysis := [("target", "Unknown")]
        initial_workers := [fallbackWorker topic]
        budget_reserve_pct := 5 / 10
        reasoning := "Fallback due to JSON parsing error in planning."
        current_hypothesis := "Fallback Plan"
        findings_summary := "Error parsing plan" }

/-- C8 — confirmed. When parsing the initial-planning LLM response fails,
`generate_comprehensive_plan` returns (rather than raises) a plan whose
workers are exactly one fallback worker with `strategy = "broad_fallback"`,
`example_queries = [topic]` and `page_budget = 30`, and whose
`budget_reserve_pct` is 0.5. -/
theorem initial_plan_parse_failure_fallback (topic : String) :
    (generateComprehensivePlan topic none).initial_workers = [fallbackWorker topic] ∧
    (fallbackWorker topic).strategy = "broad_fallback" ∧
    (fallbackWorker topic).example_queries = [topic] ∧
    (fallbackWorker topic).page_budget = 30 ∧
    (generateComprehensivePlan topic none).budget_reserve_pct = 5 / 10 :=
  ⟨rfl, rfl, rfl, rfl, rfl⟩

/-! ### db/models.py + db/repository.py — session persistence (C9)

`ResearchSessionHelper` (models.py) has columns `topic` (primary key),
`status`, `logs`, `state_dump`, `created_at`, `updated_at` — and no
`session_id` or `total_cost` column. `ResearchState` (state.py) has fields
`id, topic, status, known_entities, visited_urls, workers, plan,
iteration_count, logs, discovered_code_names, discovered_companies,
high_value_urls` — and no `total_cost` field. `save_session` and
`get_session` (repository.py) both start by evaluating the class attribute
`ResearchSessionHelper.session_id`; in Python this access raises
`AttributeError` before any query is issued, so the rest of either function
body is unreachable. -/

/-- Columns of `research_sessions` as declared in db/models.py. -/
def researchSessionHelperColumns : List String :=
  ["topic", "status", "logs", "state_dump", "created_at", "updated_at"]

/-- Fields of the `ResearchState` pydantic model in research/state.py. -/
def researchStateFields : List String :=
  ["id", "topic", "status", "known_entities", "visited_urls", "workers",
   "plan", "iteration_count", "logs", "discovered_code_names",
   "discovered_companies", "high_value_urls"]

/-- Python attribute access against a class or model with the given
attribute names: raises `AttributeError` when absent. -/
def getattrOn (attrs : List String) (name : String) : Except String String :=
  if name ∈ attrs then Except.ok name else Except.error ("AttributeError: " ++ name)

/-- The data carried by a `ResearchState` for persistence purposes. -/
structure ResearchStateData where
  id : String
  topic : String
  status : String
  iteration_count : Nat := 0
  logs : List String := []
deriving Repr, DecidableEq

/-- A row of the `research_sessions` table. -/
structure SessionRow where
  topic : String
  status : String
  logs : List String
  state_dump : String
deriving Repr, DecidableEq

/-- db/repository.py `save_session`: the first evaluated expression is the
class attribute access `ResearchSessionHelper.session_id` (inside
`select(...).where(ResearchSessionHelper.session_id == state.id)`), which
raises; the subsequent read of `state.total_cost` would raise as well. The
upsert in the source after these accesses is unreachable, which is why no
row logic follows the two lookups here. -/
def saveSession (_state : ResearchStateData) (sessions : List SessionRow) :
    Except String (List SessionRow) := do
  let _sessionIdColumn ← getattrOn researchSessionHelperColumns "session_id"
  let _totalCost ← getattrOn researchStateFields "total_cost"
  Except.ok sessions

/-- db/repository.py `get_session`: also begins with the raising access
`ResearchSessionHelper.session_id`; its row reconstruction is unreachable. -/
def getSession (_sessionId : String) (_sessions : List SessionRow) :
    Except String (Option ResearchStateData) := do
  let _sessionIdColumn ← getattrOn researchSessionHelperColumns "session_id"
  Except.ok none

/-- C9 — code bug. `save_session` never succeeds: `ResearchSessionHelper`
has no `session_id` column (its primary key is `topic`) and `ResearchState`
has no `total_cost` field, so the very first expression of both
`save_session` and `get_session` raises `AttributeError` for every input
state; no round trip is possible. -/
theorem save_session_always_raises (s : ResearchStateData)
    (sessions : List SessionRow) :
    saveSession s sessions = Except.error "AttributeError: session_id" ∧
    getSession s.id sessions = Except.error "AttributeError: session_id" ∧
    "session_id" ∉ researchSessionHelperColumns ∧
    "total_cost" ∉ researchStateFields :=
  ⟨rfl, rfl, by decide, by decide⟩

/-! ### research/link_scorer.py — LinkScorer.score_links_batch (C10)

The class-level cache `LinkScorer._cache` maps a URL — and only a URL — to
the stored `{score, reasoning, cost}`. A call first splits its links into
cached and uncached by `url in self._cache`; the uncached ones are scored by
the batched LLM call (abstracted here as an oracle from the link's URL and
the call's `research_query` to a score entry) and written into the cache;
the final list is assembled in input order, tagging entries served from the
cache with `cached = True` and freshly scored ones with `cached = False`. -/

/-- A cache entry of `LinkScorer._cache`. -/
structure CacheEntry where
  score : Int
  reasoning : String
  cost : ℚ
deriving Repr, DecidableEq

/-- One element of the list returned by `score_links_batch`. -/
structure ScoredLink where
  url : String
  score : Int
  reasoning : String
  cost : ℚ
  cached : Bool
deriving Repr, DecidableEq

/-- link_scorer.py lines 55-120, `score_links_batch` over the URLs of the
input links, with the LLM batches abstracted as `oracle` (url and
research_query to entry; chunking and the semaphore do not affect the
per-URL results). Returns the results in input order and the updated
process-wide cache. -/
def scoreLinksBatch (oracle : String → String → CacheEntry)
    (links : List String) (researchQuery : String)
    (cache : List (String × CacheEntry)) :
    List ScoredLink × List (String × CacheEntry) :=
  let linksToScore := links.filter (fun u => (assocFind? cache u).isNone)
  let cache2 := linksToScore.foldl
    (fun c u => assocUpdate c u (oracle u researchQuery)) cache
  (links.map (fun u =>
    match assocFind? cache u with
    | some e =>
        { url := u, score := e.score, reasoning := e.reasoning, cost := e.cost,
          cached := true }
    | none =>
        let e := oracle u researchQuery
        { url := u, score := e.score, reasoning := e.reasoning, cost := e.cost,
          cached := false }), cache2)

theorem foldl_assocUpdate_find_not_mem {α : Type} (g : String → α)
    (l : List String) (c : List (String × α)) (u : String) (hu : u ∉ l) :
    assocFind? (l.foldl (fun acc x => assocUpdate acc x (g x)) c) u =
      assocFind? c u := by
  induction l generalizing c with
  | nil => rfl
  | cons x rest ih =>
      have hx : x ≠ u := fun h => hu (h ▸ List.mem_cons_self x rest)
      have hrest : u ∉ rest := fun h => hu (List.mem_cons_of_mem x h)
      calc assocFind? (((x :: rest).foldl
            (fun acc y => assocUpdate acc y (g y)) c)) u
          = assocFind? (rest.foldl (fun acc y => assocUpdate acc y (g y))
              (assocUpdate c x (g x))) u := rfl
        _ = assocFind? (assocUpdate c x (g x)) u := ih (assocUpdate c x (g x)) hrest
        _ = assocFind? c u := assocFind?_update_ne c x u (g x) hx

theorem foldl_assocUpdate_find_mem {α : Type} (g : String → α)
    (l : List String) (c : List (String × α)) (u : String) (hu : u ∈ l) :
    assocFind? (l.foldl (fun acc x => assocUpdate acc x (g x)) c) u =
      some (g u) := by
  induction l generalizing c with
  | nil => cases hu
  | cons x rest ih =>
      by_cases hmem : u ∈ rest
      · simpa using ih (assocUpdate c x (g x)) hmem
      · have hx : x = u := by
          rcases List.mem_cons.mp hu with h | h
          · exact h.symm
          · exact absurd h hmem
        subst hx
        calc assocFind? (((x :: rest).foldl
              (fun acc y => assocUpdate acc y (g y)) c)) x
            = assocFind? (rest.foldl (fun acc y => assocUpdate acc y (g y))
                (assocUpdate c x (g x))) x := rfl
          _ = assocFind? (assocUpdate c x (g x)) x :=
              foldl_assocUpdate_find_not_mem g rest (assocUpdate c x (g x)) x hmem
          _ = some (g x) := assocFind?_update_self c x (g x)

/-- C10 — confirmed. The per-process cache of `LinkScorer` is keyed by URL
only: if a first `score_links_batch` call scores URL `u` (uncached) under
`research_query = q1`, any later call whose links contain `u` gets back the
score and reasoning stored by the first call with `cached = true`,
independently of its own `research_query` and of the LLM behaviour at the
time of the second call. -/
theorem link_scorer_cache_ignores_query
    (oracle oracle2 : String → String → CacheEntry) (q1 q2 : String)
    (links1 links2 : List String) (cache0 : List (String × CacheEntry))
    (u : String) (h1 : u ∈ links1) (h0 : assocFind? cache0 u = none)
    (h2 : u ∈ links2) :
    ∃ e ∈ (scoreLinksBatch oracle2 links2 q2
        (scoreLinksBatch oracle links1 q1 cache0).2).1,
      e.url = u ∧ e.cached = true ∧ e.score = (oracle u q1).score ∧
        e.reasoning = (oracle u q1).reasoning := by
  have hmem : u ∈ links1.filter (fun x => (assocFind? cache0 x).isNone) :=
    List.mem_filter.mpr ⟨h1, by simp [h0]⟩
  have hfind : assocFind? (scoreLinksBatch oracle links1 q1 cache0).2 u =
      some (oracle u q1) := by
    show assocFind?
        ((links1.filter fun x => (assocFind? cache0 x).isNone).foldl
          (fun c x => assocUpdate c x (oracle x q1)) cache0) u =
      some (oracle u q1)
    exact foldl_assocUpdate_find_mem (fun x => oracle x q1) _ cache0 u hmem
  refine ⟨_, List.mem_map.mpr ⟨u, h2, rfl⟩, ?_⟩
  simp [hfind]

/-- C10 — witness: the same URL scored under one query is served from the
cache — keeping the first call's score and reasoning — by a second call
with a different research query. -/
theorem link_scorer_cache_ignores_query_witness :
    ∃ e ∈ (scoreLinksBatch
        (fun _ q => { score := 7, reasoning := q, cost := 0 })
        ["https://x.example"] "different query"
        (scoreLinksBatch (fun _ q => { score := 7, reasoning := q, cost := 0 })
          ["https://x.example"] "cdk12 inhibitors china" []).2).1,
      e.url = "https://x.example" ∧ e.cached = true ∧
        e.score = ((fun (_ : String) (q : String) =>
          ({ score := 7, reasoning := q, cost := 0 } : CacheEntry))
            "https://x.example" "cdk12 inhibitors china").score ∧
        e.reasoning = ((fun (_ : String) (q : String) =>
          ({ score := 7, reasoning := q, cost := 0 } : CacheEntry))
            "https://x.example" "cdk12 inhibitors china").reasoning :=
  link_scorer_cache_ignores_query
    (fun _ q => { score := 7, reasoning := q, cost := 0 })
    (fun _ q => { score := 7, reasoning := q, cost := 0 })
    "cdk12 inhibitors china" "different query"
    ["https://x.example"] ["https://x.example"] [] "https://x.example"
    (by decide) rfl (by decide)
